import Mathlib

/-!
Shallow embedding of `src/brk_rpa_utils/main.py` (repository `brk-rpa-utils`).

The module defines four Python functions:
  `_get_credentials`, `start_opus`, `start_ri`, `parse_ri_html_report_to_dataframe`.

Modelling conventions:
* Python exceptions are modelled with `Except PyError`; a `try/except Exception`
  boundary turns any error of the guarded region into the fallback value.
* Python values decoded from JSON are modelled by the inductive `Json`;
  the Python sentinel `None` coincides with the decoded JSON `null`, so the
  "absent" sentinel returned by `_get_credentials` is `Json.null`.
* The filesystem is a parameter `FS : String → Option String` mapping a path to
  the content of the file stored there (`none` = the file does not exist, so
  `open` raises `FileNotFoundError`).
* `json.load` is modelled by an executable JSON parser (`Json.parse`).  Two
  documented simplifications that no claim depends on: numbers are parsed as
  integers (a file using fractions or exponents is treated as a decode error,
  which lands in the same `except` branch as any other non-string credential
  content), and `\u` escapes are not supported.  Duplicate keys keep the last
  occurrence, as Python's `dict` does.
* External effects (spawning the SAP launcher, sleeping, the COM attach, every
  Playwright call) are given by caller-supplied "world" records of functions
  returning `Except PyError`; each executed effect is also recorded in a trace
  list, so "no external invocation happened" is the statement `trace = []`.
* The import block at the top of `main.py` is a string literal, so it binds no
  module-level names; the bodies are nevertheless modelled as if the listed
  libraries were importable, which is the reading that the rest of the module
  (and its docstrings) assume.  Name resolution is modelled only where it
  decides behaviour: the body of `start_ri` refers to the name `playwright`,
  which is bound neither locally (the parameter is spelled `Playwright`) nor
  at module level, hence raises `NameError` inside the `try` block.
-/

set_option maxRecDepth 100000

namespace BrkRpaUtils

/-- The Python exception kinds this module can raise or catch.  All of them
derive from `Exception`, so `except Exception` catches every one of them. -/
inductive PyError where
  | fileNotFound
  | jsonDecodeError
  | keyError
  | typeError
  | indexError
  | valueError
  | nameError
  | other (msg : String)
  deriving DecidableEq, Repr

/-- Python values decodable from JSON.  `Json.null` is the decoded `null` and
also plays the role of the Python value `None`. -/
inductive Json where
  | null
  | bool (b : Bool)
  | num (n : Int)
  | str (s : String)
  | arr (elems : List Json)
  | obj (fields : List (String × Json))

/-- Does `cs` start with `pat`? -/
def startsWith : List Char → List Char → Bool
  | _, [] => true
  | [], _ :: _ => false
  | a :: as, b :: bs => a = b && startsWith as bs

/-- JSON whitespace. -/
def isWsChar (c : Char) : Bool :=
  c = ' ' || c = '\t' || c = '\n' || c = '\r'

/-- Drop leading whitespace. -/
def skipWs : List Char → List Char
  | [] => []
  | c :: cs => if isWsChar c then skipWs cs else c :: cs

/-- Longest digit prefix and the rest. -/
def takeDigits : List Char → (List Char × List Char)
  | [] => ([], [])
  | c :: cs =>
    if c.isDigit then
      let (ds, r) := takeDigits cs
      (c :: ds, r)
    else ([], c :: cs)

/-- Numeric value of a digit list. -/
def digitsVal (ds : List Char) : Nat :=
  ds.foldl (fun acc c => acc * 10 + (c.toNat - 48)) 0

/-- Body of a JSON string literal, after the opening quote.  Returns the
decoded string and the remaining input after the closing quote. -/
def parseStringBody : Nat → List Char → Option (String × List Char)
  | 0, _ => none
  | _ + 1, [] => none
  | fuel + 1, c :: cs =>
    if c = '\"' then some ("", cs)
    else if c = '\\' then
      match cs with
      | [] => none
      | e :: cs2 =>
        let esc : Option Char :=
          if e = '\"' then some '\"'
          else if e = '\\' then some '\\'
          else if e = '/' then some '/'
          else if e = 'n' then some '\n'
          else if e = 't' then some '\t'
          else if e = 'r' then some '\r'
          else if e = 'b' then some (Char.ofNat 8)
          else if e = 'f' then some (Char.ofNat 12)
          else none
        match esc with
        | none => none
        | some ch =>
          match parseStringBody fuel cs2 with
          | none => none
          | some (s, rest) => some (String.singleton ch ++ s, rest)
    else
      match parseStringBody fuel cs with
      | none => none
      | some (s, rest) => some (String.singleton c ++ s, rest)

/-- Keep the last occurrence of every key, in last-write order position:
Python's `dict` built from a JSON object keeps the latest value for a
duplicated key. -/
def dedupKeepLast (fields : List (String × Json)) : List (String × Json) :=
  fields.foldl (fun acc kv => acc.filter (fun kv2 => kv2.1 ≠ kv.1) ++ [kv]) []

mutual

/-- Fuel-indexed JSON value parser.  Returns the value and remaining input. -/
def parseJsonAux : Nat → List Char → Option (Json × List Char)
  | 0, _ => none
  | fuel + 1, cs0 =>
    match skipWs cs0 with
    | [] => none
    | c :: cs =>
      if c = 'n' then
        if cs.take 3 = ['u', 'l', 'l'] then some (Json.null, cs.drop 3) else none
      else if c = 't' then
        if cs.take 3 = ['r', 'u', 'e'] then some (Json.bool true, cs.drop 3) else none
      else if c = 'f' then
        if cs.take 4 = ['a', 'l', 's', 'e'] then some (Json.bool false, cs.drop 4) else none
      else if c = '\"' then
        match parseStringBody (fuel + 1) cs with
        | none => none
        | some (s, rest) => some (Json.str s, rest)
      else if c = '-' then
        match takeDigits cs with
        | ([], _) => none
        | (ds, r) => some (Json.num (-(digitsVal ds : Int)), r)
      else if c.isDigit then
        match takeDigits (c :: cs) with
        | (ds, r) => some (Json.num (digitsVal ds), r)
      else if c = Char.ofNat 91 then
        parseArrayAux fuel cs
      else if c = Char.ofNat 123 then
        parseObjAux fuel cs
      else none

/-- Items of a JSON array, after the opening bracket. -/
def parseArrayAux : Nat → List Char → Option (Json × List Char)
  | 0, _ => none
  | fuel + 1, cs0 =>
    match skipWs cs0 with
    | [] => none
    | c :: cs =>
      if c = Char.ofNat 93 then some (Json.arr [], cs)
      else
        match parseJsonAux fuel (c :: cs) with
        | none => none
        | some (v, rest) =>
          match parseArrayTail fuel rest with
          | none => none
          | some (vs, rest2) => some (Json.arr (v :: vs), rest2)

/-- After one array item: either `]` ends the array or `,` precedes more. -/
def parseArrayTail : Nat → List Char → Option (List Json × List Char)
  | 0, _ => none
  | fuel + 1, cs0 =>
    match skipWs cs0 with
    | [] => none
    | c :: cs =>
      if c = Char.ofNat 93 then some ([], cs)
      else if c = ',' then
        match parseJsonAux fuel cs with
        | none => none
        | some (v, rest) =>
          match parseArrayTail fuel rest with
          | none => none
          | some (vs, rest2) => some (v :: vs, rest2)
      else none

/-- Fields of a JSON object, after the opening brace. -/
def parseObjAux : Nat → List Char → Option (Json × List Char)
  | 0, _ => none
  | fuel + 1, cs0 =>
    match skipWs cs0 with
    | [] => none
    | c :: cs =>
      if c = Char.ofNat 125 then some (Json.obj [], cs)
      else
        match parseObjField fuel (c :: cs) with
        | none => none
        | some (kv, rest) =>
          match parseObjTail fuel rest with
          | none => none
          | some (kvs, rest2) => some (Json.obj (dedupKeepLast (kv :: kvs)), rest2)

/-- One `"key" : value` field. -/
def parseObjField : Nat → List Char → Option ((String × Json) × List Char)
  | 0, _ => none
  | fuel + 1, cs0 =>
    match skipWs cs0 with
    | [] => none
    | c :: cs =>
      if c = '\"' then
        match parseStringBody (fuel + 1) cs with
        | none => none
        | some (k, rest) =>
          match skipWs rest with
          | [] => none
          | c2 :: cs2 =>
            if c2 = ':' then
              match parseJsonAux fuel cs2 with
              | none => none
              | some (v, rest2) => some ((k, v), rest2)
            else none
      else none

/-- After one object field: either the closing brace or `,` and more fields. -/
def parseObjTail : Nat → List Char → Option (List (String × Json) × List Char)
  | 0, _ => none
  | fuel + 1, cs0 =>
    match skipWs cs0 with
    | [] => none
    | c :: cs =>
      if c = Char.ofNat 125 then some ([], cs)
      else if c = ',' then
        match parseObjField fuel cs with
        | none => none
        | some (kv, rest) =>
          match parseObjTail fuel rest with
          | none => none
          | some (kvs, rest2) => some (kv :: kvs, rest2)
      else none

end

/-- `json.load` on the file content: parse one JSON value, allow surrounding
whitespace, fail on trailing garbage. -/
def Json.parse (s : String) : Option Json :=
  match parseJsonAux (s.length + 1) s.toList with
  | none => none
  | some (j, rest) => if skipWs rest = [] then some j else none

/-- Python subscription `j[key]` with a string key on a decoded JSON value:
a `dict` yields the stored value or raises `KeyError`; any other value raises
`TypeError` when subscripted with a string. -/
def Json.getItem (j : Json) (key : String) : Except PyError Json :=
  match j with
  | Json.obj fields =>
    match fields.lookup key with
    | some v => Except.ok v
    | none => Except.error PyError.keyError
  | _ => Except.error PyError.typeError

/-- Python truthiness of a decoded JSON value (`if not username` …):
`None`, `False`, `0`, `""`, `[]` and `\x7b\x7d` are falsy. -/
def Json.truthy : Json → Bool
  | Json.null => false
  | Json.bool b => b
  | Json.num n => n != 0
  | Json.str s => !s.isEmpty
  | Json.arr xs => !xs.isEmpty
  | Json.obj fs => !fs.isEmpty

/-- Python `str()` of a decoded JSON value, as used by the f-strings building
the launcher command line.  Containers are abstracted to a fixed token; no
claim inspects the rendering of a non-string credential. -/
def Json.pyStr : Json → String
  | Json.null => "None"
  | Json.bool true => "True"
  | Json.bool false => "False"
  | Json.num n => toString n
  | Json.str s => s
  | Json.arr _ => "[...]"
  | Json.obj _ => "\x7b...\x7d"

/-- The filesystem visible to the functions: path → file content. -/
def FS : Type := String → Option String

/-- `Path(pam_path) / robot_name / f"(robot_name).json"` (main.py line 35). -/
def passFilePath (pam_path robot_name : String) : String :=
  pam_path ++ "/" ++ robot_name ++ "/" ++ robot_name ++ ".json"

/-- The body of `_get_credentials` up to its `return username, password`
(main.py lines 35–44), before the `except` clauses are applied: open the
per-robot file, `json.load` it, and subscript `json_string[fagsystem]["username"]`
and `json_string[fagsystem]["password"]` (the object is subscripted twice with
`fagsystem`, exactly as in the source). -/
def getCredentialsImpl (fs : FS) (pam_path robot_name fagsystem : String) :
    Except PyError (Json × Json) :=
  match fs (passFilePath pam_path robot_name) with
  | none => Except.error PyError.fileNotFound
  | some content =>
    match Json.parse content with
    | none => Except.error PyError.jsonDecodeError
    | some json_string =>
      match json_string.getItem fagsystem with
      | Except.error e => Except.error e
      | Except.ok entry =>
        match entry.getItem "username" with
        | Except.error e => Except.error e
        | Except.ok username =>
          match json_string.getItem fagsystem with
          | Except.error e => Except.error e
          | Except.ok entry2 =>
            match entry2.getItem "password" with
            | Except.error e => Except.error e
            | Except.ok password => Except.ok (username, password)

/-- `_get_credentials` (main.py lines 16–53): the `try` body above, with every
exception (`FileNotFoundError`, `json.JSONDecodeError`, and the catch-all
`except Exception`) logged and converted to the sentinel `return None, None`. -/
def _get_credentials (fs : FS) (pam_path robot_name fagsystem : String) : Json × Json :=
  match getCredentialsImpl fs pam_path robot_name fagsystem with
  | Except.ok pair => pair
  | Except.error _ => (Json.null, Json.null)

/-- External effects the launchers can perform.  A launcher's trace records
every attempted external invocation, in order. -/
inductive Effect where
  | subprocessRun (args : List String)
  | sleep (secs : Nat)
  | comGetObject (name : String)
  | comCall (name : String)
  | browserLaunch (headless : Bool)
  | browserNewContext (width height : Nat)
  | browserNewPage
  | pageGoto (url : String)
  | pageClick (selector : String)
  | pageFill (selector value : String)
  | pagePress (selector key : String)
  deriving DecidableEq, Repr

/-- Outcomes of the external calls `start_opus` makes: `subprocess.run`,
`win32com.client.GetObject`, `.GetScriptingEngine`, `.Connections(i)` and
`.sessions(i)`.  Opaque handles are numbered by `Nat`. -/
structure OpusWorld where
  runOutcome : List String → Except PyError Unit
  getObject : String → Except PyError Nat
  getScriptingEngine : Nat → Except PyError Nat
  connections : Nat → Nat → Except PyError Nat
  sessions : Nat → Nat → Except PyError Nat

/-- The `try` block of `start_opus` (main.py lines 90–95): attach to the SAP
scripting engine, first connection, first session. -/
def opusAttach (w : OpusWorld) : Except PyError Nat × List Effect :=
  match w.getObject "SAPGUI" with
  | Except.error e => (Except.error e, [Effect.comGetObject "SAPGUI"])
  | Except.ok sap =>
    match w.getScriptingEngine sap with
    | Except.error e =>
      (Except.error e, [Effect.comGetObject "SAPGUI", Effect.comCall "GetScriptingEngine"])
    | Except.ok app =>
      match w.connections app 0 with
      | Except.error e =>
        (Except.error e,
         [Effect.comGetObject "SAPGUI", Effect.comCall "GetScriptingEngine",
          Effect.comCall "Connections"])
      | Except.ok connection =>
        match w.sessions connection 0 with
        | Except.error e =>
          (Except.error e,
           [Effect.comGetObject "SAPGUI", Effect.comCall "GetScriptingEngine",
            Effect.comCall "Connections", Effect.comCall "sessions"])
        | Except.ok session =>
          (Except.ok session,
           [Effect.comGetObject "SAPGUI", Effect.comCall "GetScriptingEngine",
            Effect.comCall "Connections", Effect.comCall "sessions"])

/-- The command line built at main.py lines 79–85. -/
def opusCommandArgs (sapshcut_path : String) (username password : Json) : List String :=
  [sapshcut_path, "-system=P02", "-client=400",
   "-user=" ++ username.pyStr, "-pw=" ++ password.pyStr]

/-- `start_opus` (main.py lines 56–99).  Looks up the "opus" credentials; if
either component is falsy it logs and returns `None` at once.  Otherwise it
invokes `subprocess.run(command_args, check=False)` and `time.sleep(3)` —
both OUTSIDE any `try` block, so an exception raised by the invocation
propagates to the caller — and then attaches to the scripting engine inside a
`try` whose `except Exception` converts any attach failure into `None`.
The result is the Python outcome (`Except.error` = a raised exception escaping
the function) paired with the trace of attempted external effects. -/
def start_opus (w : OpusWorld) (fs : FS) (pam_path robot_name sapshcut_path : String) :
    Except PyError (Option Nat) × List Effect :=
  let creds := _get_credentials fs pam_path robot_name "opus"
  if !creds.1.truthy || !creds.2.truthy then (Except.ok none, [])
  else
    let command_args := opusCommandArgs sapshcut_path creds.1 creds.2
    match w.runOutcome command_args with
    | Except.error e => (Except.error e, [Effect.subprocessRun command_args])
    | Except.ok _ =>
      let attach := opusAttach w
      (Except.ok (match attach.1 with
        | Except.ok session => some session
        | Except.error _ => none),
       Effect.subprocessRun command_args :: Effect.sleep 3 :: attach.2)

/-- Outcomes of the Playwright calls `start_ri` makes.  Pages, contexts and
browsers are opaque handles numbered by `Nat`. -/
structure RiWorld where
  chromiumLaunch : Bool → Except PyError Nat
  newContext : Nat → Nat → Nat → Except PyError Nat
  newPage : Nat → Except PyError Nat
  goto : Nat → String → Except PyError Unit
  clickPlaceholder : Nat → String → Except PyError Unit
  fillPlaceholder : Nat → String → String → Except PyError Unit
  pressPlaceholder : Nat → String → String → Except PyError Unit
  clickButton : Nat → String → Except PyError Unit
  clickText : Nat → String → Except PyError Unit

/-- Names bound in the local scope of `start_ri`: its parameters (note the
capitalised `Playwright`) and the variables assigned before the `try` block. -/
def riLocalNames : List String :=
  ["pam_path", "robot_name", "ri_url", "Playwright", "username", "password"]

/-- Names bound at module level of main.py.  The import block at the top of
the file is a string literal, so strictly it binds nothing; the listed library
names are included for the permissive reading in which those imports run.
Under either reading the name `playwright` is absent: the documented import is
`from playwright.sync_api import Playwright`, which binds `Playwright`, and
the function parameter is likewise spelled `Playwright`. -/
def moduleNames : List String :=
  ["os", "json", "subprocess", "time", "Path", "BeautifulSoup", "pd", "re", "io",
   "logger", "win32com",
   "_get_credentials", "start_opus", "start_ri", "parse_ri_html_report_to_dataframe"]

/-- Python name resolution inside `start_ri`: local scope, then module scope,
then `NameError`. -/
def riResolve (n : String) : Except PyError Unit :=
  if riLocalNames.contains n || moduleNames.contains n then Except.ok ()
  else Except.error PyError.nameError

/-- Writer-style computation for the browser session: a Python outcome plus
the trace of attempted Playwright effects. -/
def EwM (α : Type) : Type := Except PyError α × List Effect

instance : Monad EwM where
  pure a := (Except.ok a, [])
  bind x f :=
    match x with
    | (Except.ok a, tr) =>
      let y := f a
      (y.1, tr ++ y.2)
    | (Except.error e, tr) => (Except.error e, tr)

/-- An external call: record the effect, return its outcome. -/
def call {α : Type} (eff : Effect) (r : Except PyError α) : EwM α := (r, [eff])

/-- A pure step that can raise (no external effect). -/
def liftExc {α : Type} (r : Except PyError α) : EwM α := (r, [])

/-- The `try` block of `start_ri` (main.py lines 127–140).  Its first step is
evaluating the name `playwright` — which is not `Playwright`, the parameter —
so name resolution precedes every browser effect. -/
def riBody (w : RiWorld) (ri_url : String) (username password : Json) :
    EwM (Nat × Nat × Nat) := do
  liftExc (riResolve "playwright")
  let browser ← call (Effect.browserLaunch false) (w.chromiumLaunch false)
  let context ← call (Effect.browserNewContext 2560 1440) (w.newContext browser 2560 1440)
  let page ← call Effect.browserNewPage (w.newPage context)
  call (Effect.pageGoto ri_url) (w.goto page ri_url)
  call (Effect.pageClick "Brugernavn") (w.clickPlaceholder page "Brugernavn")
  call (Effect.pageFill "Brugernavn" username.pyStr)
    (w.fillPlaceholder page "Brugernavn" username.pyStr)
  call (Effect.pagePress "Brugernavn" "Tab") (w.pressPlaceholder page "Brugernavn" "Tab")
  call (Effect.pageClick "Password") (w.clickPlaceholder page "Password")
  call (Effect.pageFill "Password" password.pyStr)
    (w.fillPlaceholder page "Password" password.pyStr)
  call (Effect.pageClick "Log på") (w.clickButton page "Log på")
  call (Effect.pageClick "Lønsagsbehandling") (w.clickText page "Lønsagsbehandling")
  pure (page, context, browser)

/-- `start_ri` (main.py lines 102–144).  Looks up the "rollebaseretindgang"
credentials; if either component is falsy it logs and returns `None` at once.
Otherwise it runs the `try` block; `except Exception` converts any raised
error (including the `NameError` on `playwright`) into `None`. -/
def start_ri (w : RiWorld) (fs : FS) (pam_path robot_name ri_url : String)
    (Playwright : Nat) : Except PyError (Option (Nat × Nat × Nat)) × List Effect :=
  let creds := _get_credentials fs pam_path robot_name "rollebaseretindgang"
  if !creds.1.truthy || !creds.2.truthy then (Except.ok none, [])
  else
    let body := riBody w ri_url creds.1 creds.2
    (Except.ok (match body.1 with
      | Except.ok triple => some triple
      | Except.error _ => none),
     body.2)

/-- Index of the first occurrence of `pat` in the input, counting from `i`. -/
def firstOccAux (pat : List Char) : List Char → Nat → Option Nat
  | [], i => if startsWith [] pat then some i else none
  | c :: t, i => if startsWith (c :: t) pat then some i else firstOccAux pat t (i + 1)

/-- Index of the first occurrence of `pat` in `cs`. -/
def firstOcc (cs pat : List Char) : Option Nat := firstOccAux pat cs 0

/-- All indices at which `pat` occurs in the input, counting from `i`. -/
def occsAux (pat : List Char) : List Char → Nat → List Nat
  | [], _ => []
  | c :: t, i =>
    (if startsWith (c :: t) pat then [i] else []) ++ occsAux pat t (i + 1)

/-- All indices at which `pat` occurs in `cs`. -/
def occs (cs pat : List Char) : List Nat := occsAux pat cs 0

/-- `re.search(r"<html.*</html>", content, re.DOTALL)` (main.py line 163):
the leftmost viable start of `<html`, with the greedy `.*` reaching the last
`</html>`.  Returns the matched substring, or `none` when the pattern does not
match. -/
def findHtmlSpan (content : String) : Option String :=
  let cs := content.toList
  let js := occs cs "</html>".toList
  let is := (occs cs "<html".toList).filter (fun i => js.any (fun j => i + 5 ≤ j))
  match is with
  | [] => none
  | i :: _ =>
    let j := (js.filter (fun j => i + 5 ≤ j)).foldl Nat.max 0
    some (String.mk ((cs.drop i).take (j + 7 - i)))

/-- `soup.find_all("table")` (main.py line 172), modelled on the serialized
text: successive non-nested `<table … </table>` spans, each returned as its
source substring (which also serves as `str(table)`). -/
def extractTablesAux : Nat → List Char → List String
  | 0, _ => []
  | fuel + 1, cs =>
    match firstOcc cs "<table".toList with
    | none => []
    | some i =>
      let afterOpen := cs.drop i
      match firstOcc (afterOpen.drop 6) "</table>".toList with
      | none => []
      | some k =>
        let len := 6 + k + 8
        String.mk (afterOpen.take len) :: extractTablesAux fuel (afterOpen.drop len)

/-- All table spans of an HTML fragment. -/
def extractTables (html : String) : List String :=
  extractTablesAux html.length html.toList

/-- Python's `max(tables, key=len)` keeps the first element of maximal length. -/
def pyMaxByLen (t : String) (ts : List String) : String :=
  ts.foldl (fun best x => if best.length < x.length then x else best) t

/-- `max(tables, key=lambda table: len(str(table)))` (main.py line 177);
`none` exactly when there is no table. -/
def largestTable : List String → Option String
  | [] => none
  | t :: ts => some (pyMaxByLen t ts)

/-- Successive `<tr … </tr>` spans of a table. -/
def extractRowsAux : Nat → List Char → List String
  | 0, _ => []
  | fuel + 1, cs =>
    match firstOcc cs "<tr".toList with
    | none => []
    | some i =>
      let afterOpen := cs.drop i
      match firstOcc (afterOpen.drop 3) "</tr>".toList with
      | none => []
      | some k =>
        let len := 3 + k + 5
        String.mk (afterOpen.take len) :: extractRowsAux fuel (afterOpen.drop len)

/-- Remove markup tags, keeping text content. -/
def stripTagsAux : Bool → List Char → List Char
  | _, [] => []
  | true, c :: cs => if c = '>' then stripTagsAux false cs else stripTagsAux true cs
  | false, c :: cs =>
    if c = '<' then stripTagsAux true cs else c :: stripTagsAux false cs

/-- Maximal whitespace-free words of the input (`acc` holds the current word
reversed). -/
def wordsAux (acc : List Char) : List Char → List (List Char)
  | [] => if acc.isEmpty then [] else [acc.reverse]
  | c :: cs =>
    if isWsChar c then
      if acc.isEmpty then wordsAux [] cs else acc.reverse :: wordsAux [] cs
    else wordsAux (c :: acc) cs

/-- Join words with single spaces. -/
def joinWords : List (List Char) → List Char
  | [] => []
  | [w] => w
  | w :: w2 :: ws => w ++ ' ' :: joinWords (w2 :: ws)

/-- Text content of a cell as pandas extracts it: tags removed, whitespace
runs collapsed to single spaces, ends trimmed. -/
def cellText (cs : List Char) : String :=
  String.mk (joinWords (wordsAux [] (stripTagsAux false cs)))

/-- Earlier of two optional indices; the Bool tells whether the earlier one is
the first alternative. -/
def pickEarlier : Option Nat → Option Nat → Option (Nat × Bool)
  | none, none => none
  | some i, none => some (i, true)
  | none, some j => some (j, false)
  | some i, some j => if i ≤ j then some (i, true) else some (j, false)

/-- Successive `<td>`/`<th>` cell texts of a row. -/
def extractCellsAux : Nat → List Char → List String
  | 0, _ => []
  | fuel + 1, cs =>
    match pickEarlier (firstOcc cs "<td".toList) (firstOcc cs "<th".toList) with
    | none => []
    | some (i, isTd) =>
      let afterOpen := cs.drop i
      match firstOcc afterOpen ['>'] with
      | none => []
      | some g =>
        let inner := afterOpen.drop (g + 1)
        let closePat := if isTd then "</td>".toList else "</th>".toList
        match firstOcc inner closePat with
        | none => []
        | some k =>
          cellText (inner.take k) :: extractCellsAux fuel (inner.drop (k + 5))

/-- Rows of a table as lists of cell texts; rows without any cell are
dropped, as pandas does. -/
def tableRows (t : String) : List (List String) :=
  ((extractRowsAux t.length t.toList).map
      (fun r => extractCellsAux r.length r.toList)).filter (fun r => !r.isEmpty)

/-- A calendar date, as produced by `pd.to_datetime(…, format="%d%m%Y")`. -/
structure Date where
  day : Nat
  month : Nat
  year : Nat
  deriving DecidableEq, Repr

/-- Gregorian leap year. -/
def isLeap (y : Nat) : Bool := (y % 4 = 0 && y % 100 ≠ 0) || y % 400 = 0

/-- Days in a month. -/
def daysInMonth (m y : Nat) : Nat :=
  if m = 2 then (if isLeap y then 29 else 28)
  else if m = 4 || m = 6 || m = 9 || m = 11 then 30
  else 31

/-- Every character a digit? -/
def allDigits (cs : List Char) : Bool := cs.all Char.isDigit

/-- `pd.to_datetime(value, format="%d%m%Y")` on one string: two day digits,
two month digits, four year digits, no separators, validated as a real
calendar date.  (strptime also tolerates some shorter digit runs; no claim
depends on those, and every such refinement only moves inputs between the
`some` and `none` outcome of the same boundary.) -/
def parseDanishDate (s : String) : Option Date :=
  let cs := s.toList
  if cs.length = 8 && allDigits cs then
    let d := digitsVal (cs.take 2)
    let m := digitsVal ((cs.drop 2).take 2)
    let y := digitsVal (cs.drop 4)
    if 1 ≤ d && 1 ≤ m && m ≤ 12 && d ≤ daysInMonth m y then some (Date.mk d m y)
    else none
  else none

/-- A cell of the tabular structure: a string as extracted from HTML, an
integer (pandas' default column labels), a missing value (`NaN`/`NaT`), or a
converted calendar date. -/
inductive Cell where
  | s (v : String)
  | num (n : Nat)
  | nan
  | d (v : Date)
  deriving DecidableEq, Repr

/-- The pandas `DataFrame` shape this code manipulates: row index labels,
column labels, and rows of cells. -/
structure DataFrame where
  index : List Nat
  cols : List Cell
  rows : List (List Cell)
  deriving DecidableEq, Repr

/-- `pd.read_html(io.StringIO(str(largest_table)), decimal=",", thousands=".",
header=None)` (main.py line 180): the list of DataFrames parsed from the
fragment — here at most one, with a default integer range index and integer
column labels, rows padded to equal width with `NaN`.  Because the header text
row keeps every column of the report non-numeric, cells stay strings.  An
empty table yields no DataFrame. -/
def readHtml (t : String) : List DataFrame :=
  match tableRows t with
  | [] => []
  | _ :: _ =>
    let rows := tableRows t
    let ncols := rows.foldl (fun m r => Nat.max m r.length) 0
    [{ index := List.range rows.length,
       cols := (List.range ncols).map Cell.num,
       rows := rows.map (fun r => r.map Cell.s ++ List.replicate (ncols - r.length) Cell.nan) }]

/-- `df.drop(lbl)`: remove the rows labelled `lbl` (label-based, not
positional). -/
def DataFrame.dropLabel (df : DataFrame) (lbl : Nat) : DataFrame :=
  let pairs := (df.index.zip df.rows).filter (fun p => p.1 ≠ lbl)
  { df with index := pairs.map (fun p => p.1), rows := pairs.map (fun p => p.2) }

/-- The column renaming of main.py line 188. -/
def renameCol (c : Cell) : Cell :=
  if c = Cell.s "Slut F-periode" then Cell.s "date"
  else if c = Cell.s "Lønart" then Cell.s "lonart"
  else if c = Cell.s "Antal" then Cell.s "antal"
  else c

/-- main.py lines 185–188: `df.columns = df.iloc[0]` (IndexError on an empty
frame), `df = df.drop(0)` (KeyError if no row is labelled 0),
`df.reset_index(drop=True)`, and the column renaming. -/
def prepDf (df : DataFrame) : Option DataFrame :=
  match df.rows.head? with
  | none => none
  | some row0 =>
    if df.index.contains 0 then
      let dropped := DataFrame.dropLabel { df with cols := row0 } 0
      let reset := { dropped with index := List.range dropped.rows.length }
      some { reset with cols := reset.cols.map renameCol }
    else none

/-- First position whose column label is the string "date". -/
def findColIdx : List Cell → Nat → Option Nat
  | [], _ => none
  | c :: cs, i => if c = Cell.s "date" then some i else findColIdx cs (i + 1)

/-- `pd.to_datetime` applied to one cell: strings must parse as `%d%m%Y`
dates, missing values pass through as `NaT`. -/
def convCell : Cell → Option Cell
  | Cell.s v => (parseDanishDate v).map Cell.d
  | Cell.nan => some Cell.nan
  | Cell.num n => some (Cell.num n)
  | Cell.d v => some (Cell.d v)

/-- Convert position `i` of a row with `convCell`, failing if it fails. -/
def convRow : Nat → List Cell → Option (List Cell)
  | _, [] => some []
  | 0, c :: cs => (convCell c).map (fun c2 => c2 :: cs)
  | Nat.succ i, c :: cs => (convRow i cs).map (fun cs2 => c :: cs2)

/-- `Option`-valued `mapM` in explicit form. -/
def optMapM {α β : Type} (f : α → Option β) : List α → Option (List β)
  | [] => some []
  | x :: xs =>
    match f x, optMapM f xs with
    | some y, some ys => some (y :: ys)
    | _, _ => none

/-- main.py line 191: `df["date"] = pd.to_datetime(df["date"], format="%d%m%Y")`.
`KeyError` when there is no "date" column; a malformed date string raises. -/
def convertDates (df : DataFrame) : Option DataFrame :=
  match findColIdx df.cols 0 with
  | none => none
  | some i =>
    match optMapM (convRow i) df.rows with
    | none => none
    | some rs => some { df with rows := rs }

/-- Everything `parse_ri_html_report_to_dataframe` does with the selected
largest table (main.py lines 180–192): `pd.read_html` (the `if not df_mhtml`
guard raising on an empty parse), header promotion, drop, reset, rename, and
the date conversion. -/
def processTable (t : String) : Option DataFrame :=
  match readHtml t with
  | [] => none
  | df :: _ =>
    match prepDf df with
    | none => none
    | some df2 => convertDates df2

/-- `parse_ri_html_report_to_dataframe` (main.py lines 147–196).  The whole
body sits in one `try` whose `except Exception` logs and returns `None`, so
the function is total: missing file, missing `<html>` span, no tables, empty
parse, missing "date" column or malformed dates all yield `none`. -/
def parse_ri_html_report_to_dataframe (fs : FS) (mhtml_path : String) : Option DataFrame :=
  match fs mhtml_path with
  | none => none
  | some content =>
    match findHtmlSpan content with
    | none => none
    | some html_content =>
      match largestTable (extractTables html_content) with
      | none => none
      | some largest_table => processTable largest_table

/-! ### Concrete stores, filesystems and worlds used by witnesses -/

/-- A well-formed single-entry credential store. -/
def wellFormedStore : String :=
  "\x7b\"opus\": \x7b\"username\": \"u1\", \"password\": \"p1\"\x7d\x7d"

/-- A credential store whose "opus" entry maps `username` to JSON `null` and
`password` to a present string. -/
def nullUserStore : String :=
  "\x7b\"opus\": \x7b\"username\": null, \"password\": \"x\"\x7d\x7d"

/-- A credential store holding empty-string usernames for both subsystems. -/
def emptyUserStore : String :=
  "\x7b\"opus\": \x7b\"username\": \"\", \"password\": \"pw\"\x7d, " ++
  "\"rollebaseretindgang\": \x7b\"username\": \"\", \"password\": \"pw\"\x7d\x7d"

/-- A credential store holding present credentials for both subsystems. -/
def bothKeysStore : String :=
  "\x7b\"opus\": \x7b\"username\": \"u1\", \"password\": \"p1\"\x7d, " ++
  "\"rollebaseretindgang\": \x7b\"username\": \"u2\", \"password\": \"p2\"\x7d\x7d"

/-- A filesystem holding `wellFormedStore` at every path. -/
def fsWellFormed : FS := fun _ => some wellFormedStore

/-- A filesystem holding `bothKeysStore` at every path. -/
def fsBothKeys : FS := fun _ => some bothKeysStore

/-- The empty filesystem. -/
def fsEmpty : FS := fun _ => none

/-- A SAP world whose launcher invocation succeeds and whose attach fails. -/
def opusWorldAttachFails : OpusWorld where
  runOutcome := fun _ => Except.ok ()
  getObject := fun _ => Except.error (PyError.other "GetObject failed")
  getScriptingEngine := fun _ => Except.ok 0
  connections := fun _ _ => Except.ok 0
  sessions := fun _ _ => Except.ok 0

/-- A SAP world whose launcher invocation raises (e.g. the executable path
does not exist, so `subprocess.run` raises `FileNotFoundError`). -/
def opusWorldRunRaises : OpusWorld where
  runOutcome := fun _ => Except.error PyError.fileNotFound
  getObject := fun _ => Except.ok 0
  getScriptingEngine := fun _ => Except.ok 0
  connections := fun _ _ => Except.ok 0
  sessions := fun _ _ => Except.ok 0

/-- A browser world in which every Playwright call succeeds. -/
def riWorldAllOk : RiWorld where
  chromiumLaunch := fun _ => Except.ok 1
  newContext := fun _ _ _ => Except.ok 2
  newPage := fun _ => Except.ok 3
  goto := fun _ _ => Except.ok ()
  clickPlaceholder := fun _ _ => Except.ok ()
  fillPlaceholder := fun _ _ _ => Except.ok ()
  pressPlaceholder := fun _ _ _ => Except.ok ()
  clickButton := fun _ _ => Except.ok ()
  clickText := fun _ _ => Except.ok ()

/-! ### Helper lemmas -/

/-- The `try` block of `start_ri` fails on its first step: the name
`playwright` is unbound (the parameter is `Playwright`), so a `NameError` is
raised before any Playwright effect is attempted. -/
theorem riBody_nameError (w : RiWorld) (ri_url : String) (username password : Json) :
    riBody w ri_url username password = (Except.error PyError.nameError, []) := rfl

/-- Python's first-maximum `max` via `foldl`: if `t` occurs in the list and
every other element is strictly shorter, the fold returns `t`. -/
theorem foldl_pyMax_eq (t : String) :
    ∀ (ts : List String) (b : String),
      (b = t ∨ t ∈ ts) → (b ≠ t → b.length < t.length) →
      (∀ x ∈ ts, x ≠ t → x.length < t.length) →
      ts.foldl (fun best x => if best.length < x.length then x else best) b = t := by
  intro ts
  induction ts with
  | nil =>
    intro b hb _ _
    rcases hb with rfl | h
    · rfl
    · exact absurd h (List.not_mem_nil t)
  | cons x ts ih =>
    intro b hb hblen hts
    simp only [List.foldl_cons]
    by_cases hxt : x = t
    · subst hxt
      by_cases hlt : b.length < x.length
      · rw [if_pos hlt]
        exact ih x (Or.inl rfl) (fun h => absurd rfl h)
          (fun y hy hyt => hts y (List.mem_cons_of_mem x hy) hyt)
      · rw [if_neg hlt]
        by_cases hbt : b = x
        · subst hbt
          exact ih b (Or.inl rfl) (fun h => absurd rfl h)
            (fun y hy hyt => hts y (List.mem_cons_of_mem b hy) hyt)
        · exact absurd (hblen hbt) hlt
    · have hxlen : x.length < t.length := hts x (List.mem_cons_self x ts) hxt
      have hmem : b = t ∨ t ∈ ts := by
        rcases hb with rfl | h
        · exact Or.inl rfl
        · rcases List.mem_cons.mp h with rfl | h2
          · exact absurd rfl hxt
          · exact Or.inr h2
      have hts2 : ∀ y ∈ ts, y ≠ t → y.length < t.length :=
        fun y hy hyt => hts y (List.mem_cons_of_mem x hy) hyt
      by_cases hlt : b.length < x.length
      · rw [if_pos hlt]
        rcases hmem with rfl | hmemts
        · exact absurd (Nat.lt_trans hlt hxlen) (by simp)
        · exact ih x (Or.inr hmemts) (fun _ => hxlen) hts2
      · rw [if_neg hlt]
        rcases hmem with rfl | hmemts
        · exact ih b (Or.inl rfl) (fun h => absurd rfl h) hts2
        · exact ih b (Or.inr hmemts) hblen hts2

/-- If `t` is a member and every other member is strictly shorter, the
Python-style maximum selection picks `t`. -/
theorem largestTable_eq (ts : List String) (t : String)
    (hmem : t ∈ ts) (hmax : ∀ x ∈ ts, x ≠ t → x.length < t.length) :
    largestTable ts = some t := by
  cases ts with
  | nil => exact absurd hmem (List.not_mem_nil t)
  | cons hd tl =>
    have : pyMaxByLen hd tl = t := by
      apply foldl_pyMax_eq t tl hd
      · rcases List.mem_cons.mp hmem with rfl | h
        · exact Or.inl rfl
        · exact Or.inr h
      · exact fun h => hmax hd (List.mem_cons_self hd tl) h
      · exact fun y hy hyt => hmax y (List.mem_cons_of_mem hd hy) hyt
    simp [largestTable, this]

/-- A cell of the row that fails to parse as a date makes the row conversion
fail. -/
theorem convRow_none : ∀ (row : List Cell) (i : Nat) (v : String),
    row.get? i = some (Cell.s v) → parseDanishDate v = none → convRow i row = none := by
  intro row
  induction row with
  | nil => intro i v h _; simp at h
  | cons c cs ih =>
    intro i v h hv
    cases i with
    | zero =>
      simp only [List.get?] at h
      injection h with h
      subst h
      simp [convRow, convCell, hv]
    | succ i =>
      simp only [List.get?] at h
      simp [convRow, ih i v h hv]

/-- If one list element maps to `none`, the whole `optMapM` is `none`. -/
theorem optMapM_none {α β : Type} (f : α → Option β) :
    ∀ (l : List α) (x : α), x ∈ l → f x = none → optMapM f l = none := by
  intro l
  induction l with
  | nil => intro x h _; exact absurd h (List.not_mem_nil x)
  | cons y ys ih =>
    intro x h hfx
    rcases List.mem_cons.mp h with rfl | h2
    · simp [optMapM, hfx]
    · cases hfy : f y <;> simp [optMapM, hfy, ih x h2 hfx]

/-! ### Claims -/

/-- Claim C3 counterexample: `_get_credentials` CAN return a partial pair.
With a credential file mapping "opus" to an object whose `username` value is
the JSON `null` (decoded to Python `None`, the very absent sentinel) and whose
`password` is the string "x", the function succeeds and returns
`(None, "x")` — the first component absent, the second present, refuting
"never returns a partial pair in which exactly one component is present". -/
theorem get_credentials_one_sided_pair_possible :
    _get_credentials (fun _ => some nullUserStore) "pam" "bot" "opus" =
      (Json.null, Json.str "x") ∧ Json.str "x" ≠ Json.null :=
  ⟨rfl, fun h => Json.noConfusion h⟩

/-- Claim C3 (amended): for every store root, robot identity, subsystem key
and credential-file content, `_get_credentials` returns either the sentinel
pair `(absent, absent)` or exactly the two stored values for the requested
key; in the latter case a component is absent only when the store itself maps
`username` or `password` to JSON `null` (which decodes to the absent value),
so a partial pair can arise only from a stored null. -/
theorem get_credentials_sentinel_or_stored (fs : FS) (pam_path robot_name fagsystem : String) :
    _get_credentials fs pam_path robot_name fagsystem = (Json.null, Json.null) ∨
    ∃ u p, getCredentialsImpl fs pam_path robot_name fagsystem = Except.ok (u, p) ∧
      _get_credentials fs pam_path robot_name fagsystem = (u, p) := by
  unfold _get_credentials
  cases h : getCredentialsImpl fs pam_path robot_name fagsystem with
  | error e => exact Or.inl rfl
  | ok pair =>
    obtain ⟨u, p⟩ := pair
    exact Or.inr ⟨u, p, rfl, rfl⟩

/-- Claim C4: `_get_credentials` never raises past its boundary: a
nonexistent credential file, a file whose content is not valid JSON, and a
missing or malformed subsystem key (or any other failure of the lookup) all
yield the sentinel pair `(absent, absent)` instead of a propagated
exception. -/
theorem get_credentials_never_raises (fs : FS) (pam_path robot_name fagsystem : String) :
    (fs (passFilePath pam_path robot_name) = none →
      _get_credentials fs pam_path robot_name fagsystem = (Json.null, Json.null)) ∧
    (∀ content, fs (passFilePath pam_path robot_name) = some content →
      Json.parse content = none →
      _get_credentials fs pam_path robot_name fagsystem = (Json.null, Json.null)) ∧
    (∀ content j e, fs (passFilePath pam_path robot_name) = some content →
      Json.parse content = some j → j.getItem fagsystem = Except.error e →
      _get_credentials fs pam_path robot_name fagsystem = (Json.null, Json.null)) ∧
    (∀ e, getCredentialsImpl fs pam_path robot_name fagsystem = Except.error e →
      _get_credentials fs pam_path robot_name fagsystem = (Json.null, Json.null)) := by
  refine ⟨?_, ?_, ?_, ?_⟩
  · intro h
    simp [_get_credentials, getCredentialsImpl, h]
  · intro content h hp
    simp [_get_credentials, getCredentialsImpl, h, hp]
  · intro content j e h hp hgi
    simp [_get_credentials, getCredentialsImpl, h, hp, hgi]
  · intro e he
    simp [_get_credentials, he]

/-- Claim C4 witness: the three enumerated failure modes at concrete inputs —
no file at all, a non-JSON file, and a well-formed file without the requested
key — each produce the sentinel pair. -/
theorem get_credentials_never_raises_witness :
    _get_credentials fsEmpty "pam" "bot" "opus" = (Json.null, Json.null) ∧
    _get_credentials (fun _ => some "this is ,not json") "pam" "bot" "opus" =
      (Json.null, Json.null) ∧
    _get_credentials fsWellFormed "pam" "bot" "rollebaseretindgang" =
      (Json.null, Json.null) :=
  ⟨(get_credentials_never_raises fsEmpty "pam" "bot" "opus").1 rfl,
   (get_credentials_never_raises (fun _ => some "this is ,not json") "pam" "bot" "opus").2.1
     "this is ,not json" rfl rfl,
   (get_credentials_never_raises fsWellFormed "pam" "bot" "rollebaseretindgang").2.2.2
     PyError.keyError rfl⟩

/-- Claim C5: on a well-formed credential store — the file at
`<root>/<robot>/<robot>.json` parses to a JSON object mapping the requested
subsystem key to an object with string `username` and `password` fields —
`_get_credentials` returns exactly the stored pair. -/
theorem get_credentials_returns_stored_pair (fs : FS)
    (pam_path robot_name fagsystem content : String)
    (m entry : List (String × Json)) (u p : String)
    (h1 : fs (passFilePath pam_path robot_name) = some content)
    (h2 : Json.parse content = some (Json.obj m))
    (h3 : m.lookup fagsystem = some (Json.obj entry))
    (h4 : entry.lookup "username" = some (Json.str u))
    (h5 : entry.lookup "password" = some (Json.str p)) :
    _get_credentials fs pam_path robot_name fagsystem = (Json.str u, Json.str p) := by
  simp [_get_credentials, getCredentialsImpl, Json.getItem, h1, h2, h3, h4, h5]

/-- Claim C5 witness: looking up "opus" in a concrete well-formed store
returns the stored `("u1", "p1")`. -/
theorem get_credentials_returns_stored_pair_witness :
    _get_credentials fsWellFormed "pam" "bot" "opus" = (Json.str "u1", Json.str "p1") :=
  get_credentials_returns_stored_pair fsWellFormed "pam" "bot" "opus" wellFormedStore
    [("opus", Json.obj [("username", Json.str "u1"), ("password", Json.str "p1")])]
    [("username", Json.str "u1"), ("password", Json.str "p1")]
    "u1" "p1" rfl rfl rfl rfl rfl

/-- Claim C1 counterexample: `start_opus` CAN raise past its boundary.  With
present credentials and a world in which `subprocess.run` raises (the
launcher executable is missing, say), the call ends in a propagated
`FileNotFoundError` — the invocation of the external launcher sits outside
the `try` block, so its failure is neither caught nor converted to `None`. -/
theorem start_opus_run_failure_propagates :
    (start_opus opusWorldRunRaises fsWellFormed "pam" "bot" "missing.exe").1 =
      Except.error PyError.fileNotFound := rfl

/-- Claim C1 (amended): `start_opus` never raises past its boundary provided
the external launcher invocation itself does not raise: credential-lookup
failures and attach failures are caught, logged and converted to a null
result, and launch-argument construction cannot fail; only an exception from
`subprocess.run` itself (which runs outside the `try` block) propagates. -/
theorem start_opus_boundary_amended (w : OpusWorld) (fs : FS)
    (pam_path robot_name sapshcut_path : String)
    (h : ∀ args, w.runOutcome args = Except.ok ()) :
    ∃ r : Option Nat,
      (start_opus w fs pam_path robot_name sapshcut_path).1 = Except.ok r := by
  simp only [start_opus]
  by_cases hg :
      (!(_get_credentials fs pam_path robot_name "opus").1.truthy ||
       !(_get_credentials fs pam_path robot_name "opus").2.truthy) = true
  · exact ⟨none, by simp [hg]⟩
  · rw [if_neg hg, h]
    exact ⟨_, rfl⟩

/-- Claim C1 amended witness: with present credentials, a successful launcher
invocation and a failing attach, `start_opus` still returns without raising. -/
theorem start_opus_boundary_amended_witness :
    ∃ r : Option Nat,
      (start_opus opusWorldAttachFails fsWellFormed "pam" "bot" "sapshcut.exe").1 =
        Except.ok r :=
  start_opus_boundary_amended opusWorldAttachFails fsWellFormed "pam" "bot" "sapshcut.exe"
    (fun _ => rfl)

/-- Claim C2 (code bug): `start_ri` never returns the (page, context, browser)
triple — for every world, filesystem and argument list it returns `None` with
an empty effect trace, because the first statement of its `try` block
evaluates the unbound name `playwright` (the parameter is spelled
`Playwright`), raising a `NameError` that the catch-all converts to `None`
before any browser is launched.  The documented successful path is
unreachable. -/
theorem start_ri_always_returns_none (w : RiWorld) (fs : FS)
    (pam_path robot_name ri_url : String) (Playwright : Nat) :
    start_ri w fs pam_path robot_name ri_url Playwright = (Except.ok none, []) := by
  simp only [start_ri]
  split
  · rfl
  · rw [riBody_nameError]

/-- A credential store holding only the "rollebaseretindgang" entry, so the
"opus" lookup alone comes back absent. -/
def riOnlyStore : String :=
  "\x7b\"rollebaseretindgang\": \x7b\"username\": \"u2\", \"password\": \"p2\"\x7d\x7d"

/-- Claim C9: each launcher whose own credential lookup yields the absent
pair returns null immediately with an empty effect trace: no process is
spawned, no settling delay happens, no attach is attempted, and no browser is
launched.  Each conjunct hypothesises only the subsystem that launcher looks
up, so it applies per call — e.g. to `start_opus` on a store holding only
"rollebaseretindgang" credentials. -/
theorem launchers_null_on_absent_credentials (wo : OpusWorld) (wr : RiWorld) (fs : FS)
    (pam_path robot_name sapshcut_path ri_url : String) (Playwright : Nat) :
    (_get_credentials fs pam_path robot_name "opus" = (Json.null, Json.null) →
      start_opus wo fs pam_path robot_name sapshcut_path = (Except.ok none, [])) ∧
    (_get_credentials fs pam_path robot_name "rollebaseretindgang" =
        (Json.null, Json.null) →
      start_ri wr fs pam_path robot_name ri_url Playwright = (Except.ok none, [])) := by
  constructor
  · intro hOpus
    simp only [start_opus]
    rw [hOpus]
    rfl
  · intro hRi
    simp only [start_ri]
    rw [hRi]
    rfl

/-- Claim C9 witness: `start_opus` on a store holding only the
"rollebaseretindgang" entry, and `start_ri` on a store holding only the
"opus" entry, each return null and perform no external effect — the
one-sided stores show each conjunct needs only its own lookup to be
absent. -/
theorem launchers_null_on_absent_credentials_witness :
    start_opus opusWorldAttachFails (fun _ => some riOnlyStore) "pam" "bot"
      "sapshcut.exe" = (Except.ok none, []) ∧
    start_ri riWorldAllOk fsWellFormed "pam" "bot" "https://portal.kmd.dk/irj/portal" 7 =
      (Except.ok none, []) :=
  ⟨(launchers_null_on_absent_credentials opusWorldAttachFails riWorldAllOk
      (fun _ => some riOnlyStore) "pam" "bot" "sapshcut.exe"
      "https://portal.kmd.dk/irj/portal" 7).1 rfl,
   (launchers_null_on_absent_credentials opusWorldAttachFails riWorldAllOk
      fsWellFormed "pam" "bot" "sapshcut.exe"
      "https://portal.kmd.dk/irj/portal" 7).2 rfl⟩

/-- Claim C10: a successfully retrieved credential pair whose username or
password is the empty string is treated exactly like an absent pair — each
launcher returns null with an empty effect trace — because the guard tests
Python truthiness of each component, and the empty string is falsy. -/
theorem launchers_null_on_empty_string_credentials (wo : OpusWorld) (wr : RiWorld)
    (fs : FS) (pam_path robot_name sapshcut_path ri_url : String) (Playwright : Nat) :
    (∀ u p, getCredentialsImpl fs pam_path robot_name "opus" = Except.ok (u, p) →
      (u = Json.str "" ∨ p = Json.str "") →
      start_opus wo fs pam_path robot_name sapshcut_path = (Except.ok none, [])) ∧
    (∀ u p, getCredentialsImpl fs pam_path robot_name "rollebaseretindgang" =
        Except.ok (u, p) →
      (u = Json.str "" ∨ p = Json.str "") →
      start_ri wr fs pam_path robot_name ri_url Playwright = (Except.ok none, [])) := by
  constructor
  · intro u p himpl hup
    have hc : _get_credentials fs pam_path robot_name "opus" = (u, p) := by
      unfold _get_credentials
      rw [himpl]
    have hguard : (!(u, p).1.truthy || !(u, p).2.truthy) = true := by
      rcases hup with rfl | rfl
      · show (!(Json.str "").truthy || !p.truthy) = true
        cases hb : p.truthy <;> rfl
      · show (!u.truthy || !(Json.str "").truthy) = true
        cases hb : u.truthy <;> rfl
    simp only [start_opus]
    rw [hc, if_pos hguard]
  · intro u p himpl hup
    have hc : _get_credentials fs pam_path robot_name "rollebaseretindgang" = (u, p) := by
      unfold _get_credentials
      rw [himpl]
    have hguard : (!(u, p).1.truthy || !(u, p).2.truthy) = true := by
      rcases hup with rfl | rfl
      · show (!(Json.str "").truthy || !p.truthy) = true
        cases hb : p.truthy <;> rfl
      · show (!u.truthy || !(Json.str "").truthy) = true
        cases hb : u.truthy <;> rfl
    simp only [start_ri]
    rw [hc, if_pos hguard]

/-- Claim C10 witness: a store carrying empty-string usernames for both
subsystems makes both launchers return null without any external effect. -/
theorem launchers_null_on_empty_string_credentials_witness :
    start_opus opusWorldAttachFails (fun _ => some emptyUserStore) "pam" "bot"
      "sapshcut.exe" = (Except.ok none, []) ∧
    start_ri riWorldAllOk (fun _ => some emptyUserStore) "pam" "bot"
      "https://portal.kmd.dk/irj/portal" 7 = (Except.ok none, []) :=
  ⟨(launchers_null_on_empty_string_credentials opusWorldAttachFails riWorldAllOk
      (fun _ => some emptyUserStore) "pam" "bot" "sapshcut.exe"
      "https://portal.kmd.dk/irj/portal" 7).1
    (Json.str "") (Json.str "pw") rfl (Or.inl rfl),
   (launchers_null_on_empty_string_credentials opusWorldAttachFails riWorldAllOk
      (fun _ => some emptyUserStore) "pam" "bot" "sapshcut.exe"
      "https://portal.kmd.dk/irj/portal" 7).2
    (Json.str "") (Json.str "pw") rfl (Or.inl rfl)⟩

/-- A web-archive-wrapped report file: leading MIME text, then an HTML body
holding exactly one table with the Danish header row and one data row. -/
def c6Content : String :=
  "MIME-Version: 1.0\n<html><body><table><tr><td>Slut F-periode</td>" ++
  "<td>Lønart</td><td>Antal</td></tr><tr><td>01012023</td><td>1001</td>" ++
  "<td>5</td></tr></table></body></html>"

/-- An HTML report holding two tables of different serialized size. -/
def c7Content : String :=
  "<html><table><tr><td>a</td></tr></table><table><tr>" ++
  "<td>Slut F-periode</td></tr><tr><td>02022024</td></tr></table></html>"

/-- The larger of the two tables of `c7Content`, as serialized. -/
def c7BigTable : String :=
  "<table><tr><td>Slut F-periode</td></tr><tr><td>02022024</td></tr></table>"

/-- A file with no `<html>` tag at all. -/
def c8NoHtml : String := "no markup here at all"

/-- A file whose HTML span holds no table. -/
def c8NoTables : String := "<html></html>"

/-- A file whose only table has no rows, so the tabular parse is empty. -/
def c8EmptyTable : String := "<html><table></table></html>"

/-- A file whose date column holds a malformed date string. -/
def c8BadDate : String :=
  "<html><table><tr><td>Slut F-periode</td></tr><tr><td>BAD</td></tr></table></html>"

/-- The single table of `c8BadDate`, as serialized. -/
def c8BadDateTable : String :=
  "<table><tr><td>Slut F-periode</td></tr><tr><td>BAD</td></tr></table>"

/-- Claim C6: on a web-archive-wrapped HTML file containing exactly one table
with header row ["Slut F-periode","Lønart","Antal"] and single data row
["01012023","1001","5"], the parser returns a table with columns
["date","lonart","antal"], exactly one data row, the date cell parsed from
the separator-free day-month-year string to 1 January 2023, and the row index
renumbered to start at 0. -/
theorem parse_report_roundtrip :
    parse_ri_html_report_to_dataframe (fun _ => some c6Content) "report.xls" =
      some { index := [0],
             cols := [Cell.s "date", Cell.s "lonart", Cell.s "antal"],
             rows := [[Cell.d (Date.mk 1 1 2023), Cell.s "1001", Cell.s "5"]] } := rfl

/-- Claim C7: whenever the HTML span of the input holds a table `t` strictly
longer (in serialized characters) than every other table, the parser's result
is derived from `t` — it equals the processing pipeline applied to `t`. -/
theorem parse_report_selects_largest_table (fs : FS) (path content html t : String)
    (h1 : fs path = some content)
    (h2 : findHtmlSpan content = some html)
    (h3 : t ∈ extractTables html)
    (h4 : ∀ x ∈ extractTables html, x ≠ t → x.length < t.length) :
    parse_ri_html_report_to_dataframe fs path = processTable t := by
  have hl := largestTable_eq (extractTables html) t h3 h4
  simp [parse_ri_html_report_to_dataframe, h1, h2, hl]

/-- Claim C7 witness: with two tables of differing size in the file, the
result derives from the larger one. -/
theorem parse_report_selects_largest_table_witness :
    parse_ri_html_report_to_dataframe (fun _ => some c7Content) "report.xls" =
      processTable c7BigTable :=
  parse_report_selects_largest_table (fun _ => some c7Content) "report.xls"
    c7Content c7Content c7BigTable rfl rfl (by decide) (by decide)

/-- Claim C8: the report parser never raises past its boundary; it returns
null when the file has no `<html>` tag, when the HTML span holds no table,
when the tabular parse of the selected table is empty, and when the date
column holds a malformed date string. -/
theorem parse_report_none_on_malformed_input (fs : FS) (path : String) :
    (∀ content, fs path = some content →
      occs content.toList "<html".toList = [] →
      parse_ri_html_report_to_dataframe fs path = none) ∧
    (∀ content html, fs path = some content → findHtmlSpan content = some html →
      extractTables html = [] →
      parse_ri_html_report_to_dataframe fs path = none) ∧
    (∀ content html t, fs path = some content → findHtmlSpan content = some html →
      largestTable (extractTables html) = some t → tableRows t = [] →
      parse_ri_html_report_to_dataframe fs path = none) ∧
    (∀ content html t df df2 i row v, fs path = some content →
      findHtmlSpan content = some html →
      largestTable (extractTables html) = some t →
      readHtml t = [df] → prepDf df = some df2 →
      findColIdx df2.cols 0 = some i → row ∈ df2.rows →
      row.get? i = some (Cell.s v) → parseDanishDate v = none →
      parse_ri_html_report_to_dataframe fs path = none) := by
  refine ⟨?_, ?_, ?_, ?_⟩
  · intro content h hocc
    have hspan : findHtmlSpan content = none := by
      simp only [findHtmlSpan]
      rw [hocc]
      rfl
    simp [parse_ri_html_report_to_dataframe, h, hspan]
  · intro content html h hspan htab
    simp [parse_ri_html_report_to_dataframe, h, hspan, htab, largestTable]
  · intro content html t h hspan hlarge hrows
    have hpt : processTable t = none := by
      simp [processTable, readHtml, hrows]
    simp [parse_ri_html_report_to_dataframe, h, hspan, hlarge, hpt]
  · intro content html t df df2 i row v h hspan hlarge hread hprep hidx hrow hget hv
    have hcr : convRow i row = none := convRow_none row i v hget hv
    have hmm : optMapM (convRow i) df2.rows = none :=
      optMapM_none (convRow i) df2.rows row hrow hcr
    have hcd : convertDates df2 = none := by
      simp [convertDates, hidx, hmm]
    have hpt : processTable t = none := by
      simp [processTable, hread, hprep, hcd]
    simp [parse_ri_html_report_to_dataframe, h, hspan, hlarge, hpt]

/-- Claim C8 witness: the four malformed inputs — no `<html>` tag, an HTML
span without tables, a table whose tabular parse is empty, and a malformed
date string — each make the parser return null. -/
theorem parse_report_none_on_malformed_input_witness :
    parse_ri_html_report_to_dataframe (fun _ => some c8NoHtml) "report.xls" = none ∧
    parse_ri_html_report_to_dataframe (fun _ => some c8NoTables) "report.xls" = none ∧
    parse_ri_html_report_to_dataframe (fun _ => some c8EmptyTable) "report.xls" = none ∧
    parse_ri_html_report_to_dataframe (fun _ => some c8BadDate) "report.xls" = none :=
  ⟨(parse_report_none_on_malformed_input (fun _ => some c8NoHtml) "report.xls").1
      c8NoHtml rfl rfl,
   (parse_report_none_on_malformed_input (fun _ => some c8NoTables) "report.xls").2.1
      c8NoTables c8NoTables rfl rfl rfl,
   (parse_report_none_on_malformed_input (fun _ => some c8EmptyTable) "report.xls").2.2.1
      c8EmptyTable c8EmptyTable "<table></table>" rfl rfl rfl rfl,
   (parse_report_none_on_malformed_input (fun _ => some c8BadDate) "report.xls").2.2.2
      c8BadDate c8BadDate c8BadDateTable
      { index := [0, 1], cols := [Cell.num 0],
        rows := [[Cell.s "Slut F-periode"], [Cell.s "BAD"]] }
      { index := [0], cols := [Cell.s "date"], rows := [[Cell.s "BAD"]] }
      0 [Cell.s "BAD"] "BAD"
      rfl rfl rfl rfl rfl rfl (by decide) rfl rfl⟩

end BrkRpaUtils
